import Mathlib

/-!
Verification of the filter/transform core of src/wireframe.py, a marketing
dashboard.  The relevant computation lives in the callback
update_graphs(objective, selected_products, budget_threshold, alpha, beta,
start_date, end_date), lines 115-179 of the source:

* three chained boolean-mask filters over the module-level dataframe df
  (date range, product membership, combined-spend threshold), lines 116-118;
* the inner function adstock(series, alpha, beta), a sequential recurrence
  seeded with the first element of the series, lines 121-125;
* elementwise power transforms, spend to the power alpha resp. beta
  (diminishing returns), lines 131-132;
* the elementwise uplift, sales times (1 + alpha), line 175.

Numbers that the source handles as Python ints/floats are modelled as exact
rationals (dates as integers); the diminishing-returns transform uses a real
exponent and is modelled with Real.rpow.
-/

set_option linter.unusedVariables false

namespace Wireframe

/-- One row of the dataframe built in wireframe.py lines 15-31.  The column
set is fixed at generation time; the date is modelled as an integer (any
linearly ordered stamp), money and score columns as rationals. -/
structure Row where
  product : String
  date : ℤ
  sales : ℚ
  paid_search_spend : ℚ
  banner_ads_spend : ℚ
  impressions_paid_search : ℚ
  impressions_banner_ads : ℚ
  clicks_paid_search : ℚ
  clicks_banner_ads : ℚ
  conversions_paid_search : ℚ
  conversions_banner_ads : ℚ
  customer_loyalty : ℚ
  perfect_store_score : ℚ
deriving DecidableEq

/-- The objective dropdown of the dashboard (ROI / Revenue / Sales),
lines 43-51 of the source. -/
inductive Objective where
  | ROI
  | Revenue
  | Sales
deriving DecidableEq

/-- The three chained boolean-mask filters of update_graphs, lines 116-118 of
the source: first keep the rows whose Date column lies between start_date and
end_date inclusive, then the rows whose Product column is a member of
selected_products, then the rows whose Paid_Search_Spend plus
Banner_Ads_Spend is at least budget_threshold. -/
def filterRows (df : List Row) (start_date end_date : ℤ)
    (selected_products : List String) (budget_threshold : ℚ) : List Row :=
  let f1 := df.filter (fun r => decide (start_date ≤ r.date ∧ r.date ≤ end_date))
  let f2 := f1.filter (fun r => decide (r.product ∈ selected_products))
  f2.filter (fun r =>
    decide (budget_threshold ≤ r.paid_search_spend + r.banner_ads_spend))

/-- The tail of the adstock loop, lines 123-124 of the source: for i from 1
to the last index, append series[i] + alpha * result[i-1] * beta to the
result.  Here prev is the last element already appended to the result. -/
def adstockLoop (alpha beta : ℚ) (prev : ℚ) : List ℚ → List ℚ
  | [] => []
  | s :: rest =>
    let cur := s + alpha * prev * beta
    cur :: adstockLoop alpha beta cur rest

/-- The inner function adstock, lines 121-125 of the source.  The Python code
starts from result = [series.iloc[0]] and then runs the loop of
adstockLoop; on an empty series the seed access series.iloc[0] raises
IndexError, modelled here as none. -/
def adstock (series : List ℚ) (alpha beta : ℚ) : Option (List ℚ) :=
  match series with
  | [] => none
  | s0 :: rest => some (s0 :: adstockLoop alpha beta s0 rest)

/-- The diminishing-returns transform, lines 131-132 of the source: the spend
column raised elementwise to the power alpha (paid search) resp. beta
(banner ads), a real power. -/
noncomputable def diminishing (series : List ℝ) (exponent : ℝ) : List ℝ :=
  series.map (fun s => s ^ exponent)

/-- The uplift series of line 175 of the source: the Sales column times
(1 + alpha), elementwise. -/
def uplift (sales : List ℚ) (alpha : ℚ) : List ℚ :=
  sales.map (fun s => s * (1 + alpha))

/-- The derived data computed by one invocation of update_graphs and handed
to the six chart constructors: the filtered rows plus the five derived
series. -/
structure ChartData where
  filtered : List Row
  adstock_paid_search : List ℚ
  adstock_banner_ads : List ℚ
  diminishing_paid_search : List ℝ
  diminishing_banner_ads : List ℝ
  uplifted_sales : List ℚ

/-- The computational content of the callback update_graphs, lines 115-179 of
the source: filter, the two adstock columns, the two diminishing-returns
columns and the uplift series.

The result pairs the base dataframe with the derived data: pandas boolean
indexing (lines 116-118) returns fresh copies, so the column assignments of
lines 127-132 write only to the filtered copy and the module-level dataframe
is returned unchanged.  When adstock raises (empty filtered frame) the whole
callback raises and produces no chart data, modelled as none. -/
noncomputable def update_graphs (df : List Row) (objective : Objective)
    (selected_products : List String) (budget_threshold : ℚ)
    (alpha beta : ℚ) (start_date end_date : ℤ) :
    List Row × Option ChartData :=
  let filtered_df := filterRows df start_date end_date selected_products budget_threshold
  (df,
    match adstock (filtered_df.map (fun r => r.paid_search_spend)) alpha beta,
          adstock (filtered_df.map (fun r => r.banner_ads_spend)) alpha beta with
    | some ap, some ab =>
      some
        { filtered := filtered_df
          adstock_paid_search := ap
          adstock_banner_ads := ab
          diminishing_paid_search :=
            diminishing (filtered_df.map (fun r => ((r.paid_search_spend : ℚ) : ℝ)))
              ((alpha : ℚ) : ℝ)
          diminishing_banner_ads :=
            diminishing (filtered_df.map (fun r => ((r.banner_ads_spend : ℚ) : ℝ)))
              ((beta : ℚ) : ℝ)
          uplifted_sales := uplift (filtered_df.map (fun r => r.sales)) alpha }
    | _, _ => none)

/-! ### Helper lemmas -/

/-- The adstock loop appends exactly one element per remaining input
element. -/
theorem adstockLoop_length (a b p : ℚ) (l : List ℚ) :
    (adstockLoop a b p l).length = l.length := by
  induction l generalizing p with
  | nil => rfl
  | cons s rest ih => simp [adstockLoop, ih]

/-- Each element of the adstock loop output past the first satisfies the
recurrence of lines 123-124 of the source. -/
theorem adstockLoop_getD_succ (a b : ℚ) (l : List ℚ) (p : ℚ) (i : ℕ)
    (h : i + 1 < l.length) :
    (adstockLoop a b p l).getD (i + 1) 0 =
      l.getD (i + 1) 0 + a * (adstockLoop a b p l).getD i 0 * b := by
  induction l generalizing p i with
  | nil => simp at h
  | cons s rest ih =>
    cases i with
    | zero =>
      cases rest with
      | nil => simp at h
      | cons u t => simp [adstockLoop]
    | succ j =>
      have hj : j + 1 < rest.length := by simp at h; omega
      simpa [adstockLoop] using ih (s + a * p * b) j hj

/-- The three chained filters of lines 116-118 equal one filter by the
conjunction of the three predicates. -/
theorem filterRows_eq_filter (df : List Row) (sd ed : ℤ)
    (ps : List String) (bt : ℚ) :
    filterRows df sd ed ps bt = df.filter (fun r =>
      decide (sd ≤ r.date ∧ r.date ≤ ed ∧ r.product ∈ ps ∧
        bt ≤ r.paid_search_spend + r.banner_ads_spend)) := by
  unfold filterRows
  simp only [List.filter_filter]
  apply List.filter_congr
  intro r _
  by_cases h1 : sd ≤ r.date ∧ r.date ≤ ed <;>
    by_cases h2 : r.product ∈ ps <;>
      by_cases h3 : bt ≤ r.paid_search_spend + r.banner_ads_spend <;>
        simp [h1, h2, h3]

/-! ### Claims -/

/-- C1: for every non-empty spend series S and alpha, beta in [0.01, 1.0],
adstock(S, alpha, beta) succeeds and satisfies the recurrence result[0] =
S[0] and result[i] = S[i] + alpha * result[i-1] * beta for i in 1..n-1; in
particular adstock([100, 200, 300], alpha=0.5, beta=0.5) =
[100, 225, 356.25]. -/
theorem adstock_recurrence (S : List ℚ) (a b : ℚ) (hS : S ≠ [])
    (ha : 1/100 ≤ a ∧ a ≤ 1) (hb : 1/100 ≤ b ∧ b ≤ 1) :
    ∃ res, adstock S a b = some res ∧
      res.getD 0 0 = S.getD 0 0 ∧
      (∀ i, 1 ≤ i → i < S.length →
        res.getD i 0 = S.getD i 0 + a * res.getD (i - 1) 0 * b) ∧
      adstock [100, 200, 300] 0.5 0.5 = some [100, 225, 356.25] := by
  match S, hS with
  | s0 :: rest, _ =>
    refine ⟨s0 :: adstockLoop a b s0 rest, rfl, rfl, ?_, ?_⟩
    · intro i h1 hlen
      match i, h1 with
      | 1, _ =>
        match rest, (by simpa using hlen : 0 < rest.length) with
        | u :: t, _ => simp [adstockLoop]
      | (j + 2), _ =>
        have hj : j + 1 < rest.length := by simp at hlen; omega
        simpa using adstockLoop_getD_succ a b rest s0 j hj
    · simp [adstock, adstockLoop]
      norm_num

/-- Witness for C1: the recurrence theorem applied to the concrete series
[100, 200, 300] with alpha = beta = 0.5. -/
theorem adstock_recurrence_witness :
    (([100, 200, 300] : List ℚ) ≠ [] ∧
      (1/100 ≤ (0.5 : ℚ) ∧ (0.5 : ℚ) ≤ 1) ∧ (1/100 ≤ (0.5 : ℚ) ∧ (0.5 : ℚ) ≤ 1)) ∧
    (∃ res, adstock [100, 200, 300] 0.5 0.5 = some res ∧
      res.getD 0 0 = ([100, 200, 300] : List ℚ).getD 0 0 ∧
      (∀ i, 1 ≤ i → i < ([100, 200, 300] : List ℚ).length →
        res.getD i 0 = ([100, 200, 300] : List ℚ).getD i 0 + 0.5 * res.getD (i - 1) 0 * 0.5) ∧
      adstock [100, 200, 300] 0.5 0.5 = some [100, 225, 356.25]) :=
  ⟨⟨by simp, by norm_num, by norm_num⟩,
    adstock_recurrence [100, 200, 300] 0.5 0.5 (by simp) (by norm_num) (by norm_num)⟩

/-- C2: the claim says adstock([], alpha, beta) returns [] without raising.
The code instead evaluates series.iloc[0] unconditionally (line 122), which
raises IndexError on an empty series — modelled as none, never some [].
The empty case is reachable from the UI (deselect every product), so this is
a bug of the code against the stated error-handling design. -/
theorem adstock_empty_raises (a b : ℚ) : adstock [] a b = none := rfl

/-- C3: a row survives the filter stage iff its date lies in
[start_date, end_date], its product is selected, and its combined spend
meets the threshold; the surviving rows form a sublist of the input, hence
keep their relative order and no sorting happens. -/
theorem filter_semantics (df : List Row) (sd ed : ℤ) (ps : List String) (bt : ℚ) :
    filterRows df sd ed ps bt = df.filter (fun r =>
      decide (sd ≤ r.date ∧ r.date ≤ ed ∧ r.product ∈ ps ∧
        bt ≤ r.paid_search_spend + r.banner_ads_spend)) ∧
    (filterRows df sd ed ps bt).Sublist df := by
  refine ⟨filterRows_eq_filter df sd ed ps bt, ?_⟩
  rw [filterRows_eq_filter]
  exact List.filter_sublist df

/-- C4: the diminishing-returns transform raises each element to the given
exponent; for non-negative inputs every output element is non-negative (and
a real number, hence finite), and diminishing([100, 400], 0.5) =
[10.0, 20.0]. -/
theorem diminishing_spec (xs : List ℝ) (e : ℝ) (hxs : ∀ x ∈ xs, 0 ≤ x)
    (he : 1/100 ≤ e ∧ e ≤ 1) :
    (∀ i, i < xs.length → (diminishing xs e).getD i 0 = xs.getD i 0 ^ e) ∧
    (∀ y ∈ diminishing xs e, 0 ≤ y) ∧
    diminishing [100, 400] 0.5 = [10, 20] := by
  refine ⟨?_, ?_, ?_⟩
  · intro i hi
    rw [List.getD_eq_getElem _ _ (by simpa [diminishing] using hi),
      List.getD_eq_getElem _ _ hi]
    simp [diminishing]
  · intro y hy
    simp only [diminishing, List.mem_map] at hy
    obtain ⟨x, hx, rfl⟩ := hy
    exact Real.rpow_nonneg (hxs x hx) e
  · have h5 : (0.5 : ℝ) = 1 / 2 := by norm_num
    have h100 : (100 : ℝ) ^ (0.5 : ℝ) = 10 := by
      rw [h5, ← Real.sqrt_eq_rpow, show (100 : ℝ) = 10 ^ 2 by norm_num,
        Real.sqrt_sq (by norm_num : (0 : ℝ) ≤ 10)]
    have h400 : (400 : ℝ) ^ (0.5 : ℝ) = 20 := by
      rw [h5, ← Real.sqrt_eq_rpow, show (400 : ℝ) = 20 ^ 2 by norm_num,
        Real.sqrt_sq (by norm_num : (0 : ℝ) ≤ 20)]
    simp [diminishing, h100, h400]

/-- Witness for C4: the diminishing-returns theorem applied to the concrete
series [100, 400] with exponent 0.5. -/
theorem diminishing_spec_witness :
    ((∀ x ∈ ([100, 400] : List ℝ), 0 ≤ x) ∧ (1/100 ≤ (0.5 : ℝ) ∧ (0.5 : ℝ) ≤ 1)) ∧
    ((∀ i, i < ([100, 400] : List ℝ).length →
        (diminishing [100, 400] 0.5).getD i 0 = ([100, 400] : List ℝ).getD i 0 ^ (0.5 : ℝ)) ∧
      (∀ y ∈ diminishing [100, 400] 0.5, 0 ≤ y) ∧
      diminishing [100, 400] 0.5 = [10, 20]) :=
  ⟨⟨by norm_num, by norm_num⟩,
    diminishing_spec [100, 400] 0.5 (by norm_num) (by norm_num)⟩

/-- C5: the uplift computation multiplies each sales element by (1 + alpha)
elementwise, preserves the length, and uplift([1000, 2000], 0.1) =
[1100.0, 2200.0]. -/
theorem uplift_spec (sales : List ℚ) (a : ℚ) :
    (∀ i, (uplift sales a).getD i 0 = sales.getD i 0 * (1 + a)) ∧
    (uplift sales a).length = sales.length ∧
    uplift [1000, 2000] 0.1 = [1100, 2200] := by
  refine ⟨?_, by simp [uplift], ?_⟩
  · intro i
    by_cases hi : i < sales.length
    · rw [List.getD_eq_getElem _ _ (by simpa [uplift] using hi),
        List.getD_eq_getElem _ _ hi]
      simp [uplift]
    · rw [List.getD_eq_default _ _ (by simpa [uplift] using not_lt.mp hi),
        List.getD_eq_default _ _ (not_lt.mp hi)]
      ring
  · simp [uplift]
    norm_num

/-- C6: for every non-empty spend series and alpha, beta in [0.01, 1.0],
adstock succeeds and its output has the same length as the input. -/
theorem adstock_length_eq (S : List ℚ) (a b : ℚ) (hS : S ≠ [])
    (ha : 1/100 ≤ a ∧ a ≤ 1) (hb : 1/100 ≤ b ∧ b ≤ 1) :
    ∃ res, adstock S a b = some res ∧ res.length = S.length := by
  match S, hS with
  | s0 :: rest, _ =>
    exact ⟨s0 :: adstockLoop a b s0 rest, rfl, by simp [adstockLoop_length]⟩

/-- Witness for C6: the length theorem applied to the concrete series
[100, 200, 300] with alpha = beta = 0.5. -/
theorem adstock_length_eq_witness :
    (([100, 200, 300] : List ℚ) ≠ [] ∧
      (1/100 ≤ (0.5 : ℚ) ∧ (0.5 : ℚ) ≤ 1) ∧ (1/100 ≤ (0.5 : ℚ) ∧ (0.5 : ℚ) ≤ 1)) ∧
    (∃ res, adstock [100, 200, 300] 0.5 0.5 = some res ∧
      res.length = ([100, 200, 300] : List ℚ).length) :=
  ⟨⟨by simp, by norm_num, by norm_num⟩,
    adstock_length_eq [100, 200, 300] 0.5 0.5 (by simp) (by norm_num) (by norm_num)⟩

/-- C7: when the lower date bound exceeds the upper date bound the filter
stage returns the empty list (no row can satisfy both date predicates), for
every dataset, product selection and spend threshold. -/
theorem filter_empty_range (df : List Row) (sd ed : ℤ) (ps : List String) (bt : ℚ)
    (h : ed < sd) : filterRows df sd ed ps bt = [] := by
  rw [filterRows_eq_filter]
  apply List.filter_eq_nil_iff.mpr
  intro r _
  simp only [decide_eq_true_eq]
  rintro ⟨h1, h2, -⟩
  omega

/-- Witness for C7: a one-row dataset filtered with lower bound 2 and upper
bound 1 yields the empty list. -/
theorem filter_empty_range_witness :
    ((1 : ℤ) < 2) ∧
    filterRows [⟨"A", 1, 0, 0, 0, 0, 0, 0, 0, 0, 0, 0, 0⟩] 2 1 ["A"] 0 = [] :=
  ⟨by norm_num,
    filter_empty_range [⟨"A", 1, 0, 0, 0, 0, 0, 0, 0, 0, 0, 0, 0⟩] 2 1 ["A"] 0 (by norm_num)⟩

/-- C8: the filter stage is idempotent — filtering an already-filtered result
again with the same predicates returns it unchanged. -/
theorem filter_idempotent (df : List Row) (sd ed : ℤ) (ps : List String) (bt : ℚ) :
    filterRows (filterRows df sd ed ps bt) sd ed ps bt = filterRows df sd ed ps bt := by
  simp only [filterRows_eq_filter, List.filter_filter]
  apply List.filter_congr
  intro r _
  simp

/-- C9: the objective selector is accepted but never used: two invocations of
update_graphs that agree on every input except the objective produce exactly
the same filtered rows and derived series. -/
theorem update_graphs_objective_independent (df : List Row) (o o' : Objective)
    (sel : List String) (bt : ℚ) (a b : ℚ) (sd ed : ℤ) :
    update_graphs df o sel bt a b sd ed = update_graphs df o' sel bt a b sd ed := rfl

/-- C10: a recomputation never modifies the base dataset: pandas boolean
indexing copies, so the column assignments of lines 127-132 touch only the
filtered copy and update_graphs hands back the base dataframe unchanged,
record for record. -/
theorem update_graphs_preserves_df (df : List Row) (o : Objective)
    (sel : List String) (bt : ℚ) (a b : ℚ) (sd ed : ℤ) :
    (update_graphs df o sel bt a b sd ed).1 = df := rfl

end Wireframe
